import Mathlib

/-!
Verification of the CompressAI RD-curve plotting utility
(`compressai/utils/plot/__main__.py`).

The program parses JSON result files, validates them, optionally converts a
similarity metric to a decibel scale, and hands the series to one of two
plotting backends.  We embed the data flow shallowly:

* a decoded JSON result file becomes `ResultDoc α` (the `results` object is an
  association list with distinct keys, modelling a Python dict in insertion
  order; values are sequences over `α`);
* `json.load` either succeeds with a `ResultDoc` or fails with a decode error,
  modelled as `Except String (ResultDoc α)` handed to `parse_json_file`;
* raised Python exceptions become an error value `PyError`; lines written by
  `print` are collected in a `List String`;
* the numpy expression `-10 * np.log10(1 - values)` is elementwise; the
  embedding keeps the element transform as a parameter `db : α → α` so that
  the structural parts stay executable, and instantiates it with the real
  function `db_transform` (over `ℝ`) in the claims about the conversion.
-/

namespace PlotUtil

/-- Errors raised by the script: `json.decoder.JSONDecodeError` (re-raised by
`parse_json_file`) and `ValueError` with its message. -/
inductive PyError where
  | jsonDecodeError : String → PyError
  | valueError : String → PyError
deriving DecidableEq

/-- A decoded JSON result file: an optional `name` field and an optional
`results` object mapping metric names to sequences of values. -/
structure ResultDoc (α : Type) where
  name : Option String
  results : Option (List (String × List α))
deriving DecidableEq

/-- The record returned by `parse_json_file`:
`{'name': ..., 'xs': ..., 'ys': ...}`. -/
structure Series (α : Type) where
  name : String
  xs : List α
  ys : List α
deriving DecidableEq

/-- Characters after the last slash: models `Path(filepath).name` for the
paths the script receives (no trailing slash). -/
def afterLastSlash (cs : List Char) : List Char :=
  cs.foldl (fun acc c => if c = '/' then [] else acc ++ [c]) []

/-- Characters before the first dot. -/
def beforeFirstDot : List Char → List Char
  | [] => []
  | c :: cs => if c = '.' then [] else c :: beforeFirstDot cs

/-- Models `Path(filepath).name.split('.')[0]`: the portion of the last path
component before its first dot. -/
def file_first_name (filepath : String) : String :=
  String.mk (beforeFirstDot (afterLastSlash filepath.data))

/-- Modelled from the spec: the spec's words for the default series name are
"the file's stem (the filename without its extension)", i.e. Python
`Path(filepath).stem`: the last path component with everything from its last
dot onward removed (unchanged when it has no dot). -/
def stem_spec (filepath : String) : String :=
  let nm := afterLastSlash filepath.data
  if '.' ∈ nm then
    String.mk (((nm.reverse.dropWhile (fun c => c ≠ '.')).drop 1).reverse)
  else
    String.mk nm

/-- The element transform applied to a similarity score:
`-10 * log10(1 - v)` (`np.log10` modelled as the real base-10 logarithm). -/
noncomputable def db_transform (v : ℝ) : ℝ :=
  -10 * Real.logb 10 (1 - v)

/-- Shallow embedding of `parse_json_file(filepath, metric)`.

`content` is the outcome of `json.load` on the file.  Returns the lines
printed together with either the raised `PyError` or the returned series.
The source mutates `data['results'][metric]` in the `msssim` branch before
building the return value; since `'msssim' ≠ 'bpp'`, reading `xs` from the
unmutated `bpp` entry and `ys` from the transformed sequence is equivalent. -/
def parse_json_file {α : Type} (db : α → α) (filepath : String)
    (content : Except String (ResultDoc α)) (metric : String) :
    List String × Except PyError (Series α) :=
  let name := file_first_name filepath
  match content with
  | .error err =>
    (["Error reading file \"" ++ filepath ++ "\""],
     .error (.jsonDecodeError err))
  | .ok data =>
    match data.results with
    | none => ([], .error (.valueError ("Invalid file \"" ++ filepath ++ "\"")))
    | some results =>
      match results.lookup "bpp" with
      | none =>
        ([], .error (.valueError ("Invalid file \"" ++ filepath ++ "\"")))
      | some bpp =>
        match results.lookup metric with
        | none =>
          ([], .error (.valueError
            ("Error: metric \"" ++ metric ++ "\" not available." ++
             " Available metrics: " ++
             String.intercalate ", " (results.map Prod.fst))))
        | some values =>
          ([], .ok
            { name := data.name.getD name,
              xs := bpp,
              ys := if metric = "msssim" then values.map db else values })

/-- The figure produced by `matplotlib_plt`, as observable effects:
the plotted series, axis labels, limits, title, the file saved to
(when `output_file` is truthy), and that `plt.show()` runs. -/
structure MatplotlibPlot (α : Type) where
  scatters : List (Series α)
  xlabel : String
  ylabel : String
  appliedLimits : Option (ℤ × ℤ × ℤ × ℤ)
  title : Option String
  savedTo : Option String
  shown : Bool
deriving DecidableEq

/-- Python truthiness of an optional string: `None` and `''` are falsy. -/
def truthy : Option String → Bool
  | none => false
  | some s => s ≠ ""

/-- Shallow embedding of `matplotlib_plt`. -/
def matplotlib_plt {α : Type} (scatters : List (Series α))
    (title : Option String) (ylabel : String) (output_file : Option String)
    (limits : Option (ℤ × ℤ × ℤ × ℤ)) : MatplotlibPlot α :=
  { scatters := scatters,
    xlabel := "Bit-rate [bpp]",
    ylabel := ylabel,
    appliedLimits := limits,
    title := if truthy title then title else none,
    savedTo := if truthy output_file then output_file else none,
    shown := true }

/-- The chart written by `plotly_plt`: data series, layout, the
`auto_open=False` flag and the HTML file name passed to
`plotly.offline.plot`. -/
structure PlotlyPlot (α : Type) where
  data : List (Series α)
  title : Option String
  xaxisTitle : String
  xaxisRange : ℤ × ℤ
  yaxisTitle : String
  yaxisRange : ℤ × ℤ
  autoOpen : Bool
  filename : String
deriving DecidableEq

/-- Shallow embedding of `plotly_plt`.  The source subscripts `limits`
directly (`limits[0]` … `limits[3]`), so the limits are taken as a 4-tuple,
as `main` always supplies them; `filename=output_file or 'plot.html'` is
Python `or`, falling back when `output_file` is `None` or empty. -/
def plotly_plt {α : Type} (scatters : List (Series α))
    (title : Option String) (ylabel : String) (output_file : Option String)
    (limits : ℤ × ℤ × ℤ × ℤ) : PlotlyPlot α :=
  { data := scatters,
    title := title,
    xaxisTitle := "Bit-rate [bpp]",
    xaxisRange := (limits.1, limits.2.1),
    yaxisTitle := ylabel,
    yaxisRange := (limits.2.2.1, limits.2.2.2),
    autoOpen := false,
    filename := match output_file with
      | none => "plot.html"
      | some s => if s = "" then "plot.html" else s }

/-- Models the module-level `_backends` list: `['matplotlib']`, with
`'plotly'` appended when the plotly import succeeds. -/
def backendsList (plotlyAvailable : Bool) : List String :=
  ["matplotlib"] ++ if plotlyAvailable then ["plotly"] else []

/-- How a run of `main` ends: rejected by `argparse` (invalid `--backend`
choice), aborted by an exception from `parse_json_file`, or completing with a
call to one of the two plot functions. -/
inductive MainOutcome (α : Type) where
  | argparseError : String → MainOutcome α
  | raised : PyError → MainOutcome α
  | matplotlib : MatplotlibPlot α → MainOutcome α
  | plotly : PlotlyPlot α → MainOutcome α
deriving DecidableEq

/-- The `for f in args.results_file` loop of `main`: parse each file in
order, aborting at the first raised error. -/
def parseFiles {α : Type} (db : α → α) (metric : String) :
    List (String × Except String (ResultDoc α)) →
    List String × Except PyError (List (Series α))
  | [] => ([], .ok [])
  | (fp, content) :: rest =>
    match parse_json_file db fp content metric with
    | (printed, .error e) => (printed, .error e)
    | (printed, .ok s) =>
      match parseFiles db metric rest with
      | (printed2, .error e) => (printed ++ printed2, .error e)
      | (printed2, .ok ss) => (printed ++ printed2, .ok (s :: ss))

/-- Shallow embedding of `main(argv)`.  Each input file is given as its path
together with the outcome of decoding its contents.  `argparse` validates
`--backend` against `choices=_backends` before any file is touched; then the
files are parsed in order and the selected backend function is applied via
`func_map`.  Returns the printed lines and the outcome. -/
def main {α : Type} (db : α → α) (plotlyAvailable : Bool)
    (results_file : List (String × Except String (ResultDoc α)))
    (metric : String) (title : Option String) (output : Option String)
    (axes : ℤ × ℤ × ℤ × ℤ) (backend : String) :
    List String × MainOutcome α :=
  if backend ∈ backendsList plotlyAvailable then
    match parseFiles db metric results_file with
    | (printed, .error e) => (printed, .raised e)
    | (printed, .ok scatters) =>
      (printed,
       if backend = "plotly" then
         .plotly (plotly_plt scatters title metric output axes)
       else
         .matplotlib (matplotlib_plt scatters title metric output (some axes)))
  else
    ([], .argparseError ("argument --backend: invalid choice: " ++ backend))

/-- Helper: the successful path of `parse_json_file`.  When the document
decodes, has a `results` object containing `bpp` and the requested metric,
the function prints nothing and returns the series record built from the
document. -/
theorem parse_json_file_ok {α : Type} (db : α → α) (filepath metric : String)
    (doc : ResultDoc α) (results : List (String × List α)) (bpp values : List α)
    (hres : doc.results = some results)
    (hbpp : results.lookup "bpp" = some bpp)
    (hval : results.lookup metric = some values) :
    parse_json_file db filepath (.ok doc) metric =
      ([], .ok { name := doc.name.getD (file_first_name filepath),
                 xs := bpp,
                 ys := if metric = "msssim" then values.map db else values }) := by
  simp [parse_json_file, hres, hbpp, hval]

/-- Claim C1: for a requested metric that is a similarity score — identified,
per the spec's design note, by the name `msssim` — `parse_json_file` returns
`ys` obtained by transforming the stored sequence elementwise via
`-10 * log10(1 - value)`; for any other metric the returned `ys` is exactly
the stored sequence, unchanged. -/
theorem msssim_dispatch (filepath metric : String) (doc : ResultDoc ℝ)
    (results : List (String × List ℝ)) (bpp values : List ℝ)
    (hres : doc.results = some results)
    (hbpp : results.lookup "bpp" = some bpp)
    (hval : results.lookup metric = some values) :
    ∃ s : Series ℝ,
      (parse_json_file db_transform filepath (.ok doc) metric).2 = .ok s ∧
      (metric = "msssim" →
        s.ys = values.map (fun v => -10 * Real.logb 10 (1 - v))) ∧
      (metric ≠ "msssim" → s.ys = values) := by
  refine ⟨_, by
    rw [parse_json_file_ok db_transform filepath metric doc results bpp values
      hres hbpp hval], ?_, ?_⟩
  · intro h
    simp only [h, if_pos rfl]
    rfl
  · intro h
    simp [h]

theorem msssim_dispatch_witness :
    ∃ s : Series ℝ,
      (parse_json_file db_transform "a.json"
        (.ok ⟨none, some [("bpp", [(1 : ℝ)]), ("psnr", [(30 : ℝ)])]⟩)
        "psnr").2 = .ok s ∧
      ("psnr" = "msssim" →
        s.ys = [(30 : ℝ)].map (fun v => -10 * Real.logb 10 (1 - v))) ∧
      ("psnr" ≠ "msssim" → s.ys = [(30 : ℝ)]) :=
  msssim_dispatch "a.json" "psnr"
    ⟨none, some [("bpp", [(1 : ℝ)]), ("psnr", [(30 : ℝ)])]⟩
    [("bpp", [(1 : ℝ)]), ("psnr", [(30 : ℝ)])] [(1 : ℝ)] [(30 : ℝ)]
    rfl rfl rfl

/-- Claim C2 (counterexample): the series record returned by
`parse_json_file` need not have equal-length `xs` and `ys`: nothing in the
code compares the lengths of the stored `bpp` and metric sequences, so a file
with `bpp = [1, 2]` and `psnr = [30]` yields `xs` of length 2 and `ys` of
length 1. -/
theorem length_invariant_cex :
    ∃ s : Series ℤ,
      (parse_json_file (id : ℤ → ℤ) "a.json"
        (.ok ⟨none, some [("bpp", [1, 2]), ("psnr", [30])]⟩) "psnr").2 =
        .ok s ∧
      s.xs.length ≠ s.ys.length :=
  ⟨⟨"a", [1, 2], [30]⟩, by rfl, by decide⟩

/-- Claim C2 (amended): every series record returned by `parse_json_file`
has the requested metric key present in the document's `results` mapping,
`xs` equal to the stored `bpp` sequence, and `ys` of the same length as the
stored metric sequence — so `xs` and `ys` are equal-length exactly when the
file's `bpp` and metric sequences are. -/
theorem parse_series_shape {α : Type} (db : α → α) (filepath metric : String)
    (doc : ResultDoc α) (s : Series α)
    (h : (parse_json_file db filepath (.ok doc) metric).2 = .ok s) :
    ∃ results bpp values,
      doc.results = some results ∧
      results.lookup "bpp" = some bpp ∧
      results.lookup metric = some values ∧
      s.xs = bpp ∧ s.ys.length = values.length := by
  simp only [parse_json_file] at h
  split at h
  · simp at h
  · rename_i results hres
    split at h
    · simp at h
    · rename_i bpp hbpp
      split at h
      · simp at h
      · rename_i values hval
        simp only [Except.ok.injEq] at h
        refine ⟨results, bpp, values, hres, hbpp, hval, ?_, ?_⟩
        · rw [← h]
        · rw [← h]
          by_cases hm : metric = "msssim" <;> simp [hm]

theorem parse_series_shape_witness :
    ∃ results bpp values,
      (ResultDoc.mk (α := ℤ) none
        (some [("bpp", [1, 2]), ("psnr", [30, 31])])).results = some results ∧
      results.lookup "bpp" = some bpp ∧
      results.lookup "psnr" = some values ∧
      ([1, 2] : List ℤ) = bpp ∧ ([30, 31] : List ℤ).length = values.length :=
  parse_series_shape id "a.json" "psnr"
    ⟨none, some [("bpp", [1, 2]), ("psnr", [30, 31])]⟩
    ⟨"a", [1, 2], [30, 31]⟩ (by rfl)

/-- Claim C3: for the metric `msssim`, `parse_json_file` returns `ys` whose
elements are `-10 * log10(1 - v)` for each stored value `v`; in particular
the transform maps the value `0.9` to exactly `10`. -/
theorem msssim_formula (filepath : String) (doc : ResultDoc ℝ)
    (results : List (String × List ℝ)) (bpp values : List ℝ)
    (hres : doc.results = some results)
    (hbpp : results.lookup "bpp" = some bpp)
    (hval : results.lookup "msssim" = some values) :
    (∃ s : Series ℝ,
      (parse_json_file db_transform filepath (.ok doc) "msssim").2 = .ok s ∧
      s.ys = values.map (fun v => -10 * Real.logb 10 (1 - v))) ∧
    db_transform 0.9 = 10 := by
  constructor
  · refine ⟨_, by
      rw [parse_json_file_ok db_transform filepath "msssim" doc results bpp
        values hres hbpp hval], ?_⟩
    simp only [if_pos rfl]
    rfl
  · have h1 : (1 : ℝ) - 0.9 = (10 : ℝ)⁻¹ := by norm_num
    rw [db_transform, h1, Real.logb_inv,
      Real.logb_self_eq_one (by norm_num)]
    norm_num

theorem msssim_formula_witness :
    (∃ s : Series ℝ,
      (parse_json_file db_transform "m.json"
        (.ok ⟨none, some [("bpp", [(1 : ℝ)]), ("msssim", [(0.9 : ℝ)])]⟩)
        "msssim").2 = .ok s ∧
      s.ys = [(0.9 : ℝ)].map (fun v => -10 * Real.logb 10 (1 - v))) ∧
    db_transform 0.9 = 10 :=
  msssim_formula "m.json"
    ⟨none, some [("bpp", [(1 : ℝ)]), ("msssim", [(0.9 : ℝ)])]⟩
    [("bpp", [(1 : ℝ)]), ("msssim", [(0.9 : ℝ)])] [(1 : ℝ)] [(0.9 : ℝ)]
    rfl rfl rfl

/-- Claim C4: when the decoded document has a `results` object containing
`bpp` but not the requested metric, `parse_json_file` raises a `ValueError`
whose message lists exactly the metric keys present in the file's `results`
mapping (in order, comma-separated); the `Nodup` hypothesis is the Python
dict invariant that keys are distinct. -/
theorem missing_metric_message {α : Type} (db : α → α)
    (filepath metric : String) (doc : ResultDoc α)
    (results : List (String × List α)) (bpp : List α)
    (hres : doc.results = some results)
    (_hnd : (results.map Prod.fst).Nodup)
    (hbpp : results.lookup "bpp" = some bpp)
    (hmiss : results.lookup metric = none) :
    (parse_json_file db filepath (.ok doc) metric).2 =
      .error (.valueError
        ("Error: metric \"" ++ metric ++ "\" not available." ++
         " Available metrics: " ++
         String.intercalate ", " (results.map Prod.fst))) := by
  simp [parse_json_file, hres, hbpp, hmiss]

theorem missing_metric_message_witness :
    (parse_json_file (id : ℤ → ℤ) "r.json"
      (.ok ⟨none, some [("bpp", [1]), ("psnr", [30])]⟩) "msssim").2 =
      .error (.valueError
        ("Error: metric \"" ++ "msssim" ++ "\" not available." ++
         " Available metrics: " ++
         String.intercalate ", " ["bpp", "psnr"])) :=
  missing_metric_message id "r.json" "msssim"
    ⟨none, some [("bpp", [1]), ("psnr", [30])]⟩
    [("bpp", [1]), ("psnr", [30])] [1] rfl (by decide) rfl rfl

/-- Claim C5: when the decoded document has no `results` key, or has one
whose object lacks the `bpp` key, `parse_json_file` raises a `ValueError`
(`Invalid file "<path>"`) and returns no series record. -/
theorem invalid_file_errors {α : Type} (db : α → α)
    (filepath metric : String) (doc : ResultDoc α) :
    (doc.results = none →
      (parse_json_file db filepath (.ok doc) metric).2 =
        .error (.valueError ("Invalid file \"" ++ filepath ++ "\""))) ∧
    (∀ results, doc.results = some results →
      results.lookup "bpp" = none →
      (parse_json_file db filepath (.ok doc) metric).2 =
        .error (.valueError ("Invalid file \"" ++ filepath ++ "\""))) := by
  constructor
  · intro h
    simp [parse_json_file, h]
  · intro results h hbpp
    simp [parse_json_file, h, hbpp]

theorem invalid_file_errors_witness :
    (parse_json_file (id : ℤ → ℤ) "bad.json"
      (.ok ⟨none, none⟩) "psnr").2 =
      .error (.valueError ("Invalid file \"" ++ "bad.json" ++ "\"")) ∧
    (parse_json_file (id : ℤ → ℤ) "bad2.json"
      (.ok ⟨none, some [("psnr", [30])]⟩) "psnr").2 =
      .error (.valueError ("Invalid file \"" ++ "bad2.json" ++ "\"")) :=
  ⟨(invalid_file_errors id "bad.json" "psnr" ⟨none, none⟩).1 rfl,
   (invalid_file_errors id "bad2.json" "psnr"
      ⟨none, some [("psnr", [30])]⟩).2 [("psnr", [30])] rfl rfl⟩

/-- Claim C6: on a file whose contents fail to decode, `parse_json_file`
prints a message naming the file path and re-raises the underlying decode
error unchanged; consequently a `main` run over such a file ends with that
same decode error. -/
theorem decode_error_propagates {α : Type} (db : α → α)
    (filepath metric err : String) (plotlyAvailable : Bool)
    (title output : Option String) (axes : ℤ × ℤ × ℤ × ℤ) :
    parse_json_file db filepath (.error err) metric =
      (["Error reading file \"" ++ filepath ++ "\""],
       .error (.jsonDecodeError err)) ∧
    main db plotlyAvailable [(filepath, .error err)] metric title output axes
      "matplotlib" =
      (["Error reading file \"" ++ filepath ++ "\""],
       .raised (.jsonDecodeError err)) := by
  constructor
  · rfl
  · simp [main, backendsList, parseFiles, parse_json_file]

/-- Claim C7 (counterexample): the default series name is not the file's
stem.  For `model.v2.json` with no `name` key the code returns `model`
(`name.split('.')[0]`, the part before the *first* dot), while the stem (the
filename without its extension) is `model.v2`. -/
theorem name_default_cex :
    (∃ s : Series ℤ,
      (parse_json_file (id : ℤ → ℤ) "model.v2.json"
        (.ok ⟨none, some [("bpp", [1]), ("psnr", [30])]⟩) "psnr").2 =
        .ok s ∧
      s.name = "model") ∧
    stem_spec "model.v2.json" = "model.v2" ∧
    ("model" : String) ≠ "model.v2" :=
  ⟨⟨⟨"model", [1], [30]⟩, by rfl, rfl⟩, by rfl, by decide⟩

/-- Claim C7 (amended): the `name` of the series returned by
`parse_json_file` equals the document's `name` field when that key is
present, and otherwise defaults to the portion of the file's last path
component before its first dot (`Path(filepath).name.split('.')[0]`), which
coincides with the stem only for single-extension filenames. -/
theorem series_name_selection {α : Type} (db : α → α)
    (filepath metric : String) (doc : ResultDoc α)
    (results : List (String × List α)) (bpp values : List α)
    (hres : doc.results = some results)
    (hbpp : results.lookup "bpp" = some bpp)
    (hval : results.lookup metric = some values) :
    ∃ s : Series α,
      (parse_json_file db filepath (.ok doc) metric).2 = .ok s ∧
      (∀ n, doc.name = some n → s.name = n) ∧
      (doc.name = none → s.name = file_first_name filepath) := by
  refine ⟨_, by
    rw [parse_json_file_ok db filepath metric doc results bpp values
      hres hbpp hval], ?_, ?_⟩
  · intro n hn
    simp [hn]
  · intro hn
    simp [hn]

theorem series_name_selection_witness :
    ∃ s : Series ℤ,
      (parse_json_file (id : ℤ → ℤ) "runs/codec.json"
        (.ok ⟨some "my codec", some [("bpp", [1]), ("psnr", [30])]⟩)
        "psnr").2 = .ok s ∧
      (∀ n, (some "my codec" : Option String) = some n → s.name = n) ∧
      ((some "my codec" : Option String) = none →
        s.name = file_first_name "runs/codec.json") :=
  series_name_selection id "runs/codec.json" "psnr"
    ⟨some "my codec", some [("bpp", [1]), ("psnr", [30])]⟩
    [("bpp", [1]), ("psnr", [30])] [1] [30] rfl rfl rfl

/-- Claim C8: an invocation whose `--backend` is not among the available
backends is rejected by argument validation: `main` ends with the argparse
error, prints nothing, and its outcome is the same for any two file lists —
no input file is read. -/
theorem invalid_backend_rejected {α : Type} (db : α → α)
    (plotlyAvailable : Bool)
    (files files2 : List (String × Except String (ResultDoc α)))
    (metric : String) (title output : Option String)
    (axes : ℤ × ℤ × ℤ × ℤ) (backend : String)
    (h : backend ∉ backendsList plotlyAvailable) :
    main db plotlyAvailable files metric title output axes backend =
      ([], .argparseError
        ("argument --backend: invalid choice: " ++ backend)) ∧
    main db plotlyAvailable files metric title output axes backend =
      main db plotlyAvailable files2 metric title output axes backend := by
  have h1 : ∀ fs : List (String × Except String (ResultDoc α)),
      main db plotlyAvailable fs metric title output axes backend =
        ([], .argparseError
          ("argument --backend: invalid choice: " ++ backend)) := by
    intro fs
    simp [main, h]
  exact ⟨h1 files, (h1 files).trans (h1 files2).symm⟩

theorem invalid_backend_rejected_witness :
    ("plotly" ∉ backendsList false) ∧
    (main (id : ℤ → ℤ) false [("f.json", .error "boom")] "psnr" none none
        (0, 2, 28, 43) "plotly" =
      ([], .argparseError
        ("argument --backend: invalid choice: " ++ "plotly")) ∧
     main (id : ℤ → ℤ) false [("f.json", .error "boom")] "psnr" none none
        (0, 2, 28, 43) "plotly" =
      main (id : ℤ → ℤ) false [] "psnr" none none (0, 2, 28, 43) "plotly") :=
  ⟨by decide,
   invalid_backend_rejected id false [("f.json", .error "boom")] [] "psnr"
     none none (0, 2, 28, 43) "plotly" (by decide)⟩

/-- Claim C9: `plotly_plt` passes the given output file name to
`plotly.offline.plot` when one is provided, and falls back to the default
`plot.html` when the output file argument is `None` or the empty string. -/
theorem plotly_filename_fallback {α : Type} (scatters : List (Series α))
    (title : Option String) (ylabel : String) (limits : ℤ × ℤ × ℤ × ℤ) :
    (∀ s : String, s ≠ "" →
      (plotly_plt scatters title ylabel (some s) limits).filename = s) ∧
    (plotly_plt scatters title ylabel none limits).filename = "plot.html" ∧
    (plotly_plt scatters title ylabel (some "") limits).filename =
      "plot.html" := by
  refine ⟨fun s hs => ?_, rfl, rfl⟩
  simp [plotly_plt, hs]

theorem plotly_filename_fallback_witness :
    ("out.html" : String) ≠ "" ∧
    (plotly_plt ([] : List (Series ℤ)) none "psnr" (some "out.html")
      (0, 2, 28, 43)).filename = "out.html" ∧
    (plotly_plt ([] : List (Series ℤ)) none "psnr" none
      (0, 2, 28, 43)).filename = "plot.html" :=
  ⟨by decide,
   (plotly_filename_fallback [] none "psnr" (0, 2, 28, 43)).1 "out.html"
     (by decide),
   (plotly_filename_fallback [] none "psnr" (0, 2, 28, 43)).2.1⟩

/-- Claim C10: requesting the metric `bpp` itself succeeds on any document
whose `results` object contains `bpp`, and the returned series has `ys`
equal to `xs` — both are the file's `bpp` sequence (no transform applies,
since `bpp ≠ msssim`). -/
theorem bpp_metric_identity {α : Type} (db : α → α) (filepath : String)
    (doc : ResultDoc α) (results : List (String × List α)) (bpp : List α)
    (hres : doc.results = some results)
    (hbpp : results.lookup "bpp" = some bpp) :
    ∃ s : Series α,
      (parse_json_file db filepath (.ok doc) "bpp").2 = .ok s ∧
      s.xs = bpp ∧ s.ys = bpp ∧ s.ys = s.xs := by
  refine ⟨_, by
    rw [parse_json_file_ok db filepath "bpp" doc results bpp bpp
      hres hbpp hbpp], ?_, ?_, ?_⟩ <;> simp

theorem bpp_metric_identity_witness :
    ∃ s : Series ℤ,
      (parse_json_file (id : ℤ → ℤ) "b.json"
        (.ok ⟨none, some [("bpp", [1, 2]), ("psnr", [30, 31])]⟩)
        "bpp").2 = .ok s ∧
      s.xs = [1, 2] ∧ s.ys = [1, 2] ∧ s.ys = s.xs :=
  bpp_metric_identity id "b.json"
    ⟨none, some [("bpp", [1, 2]), ("psnr", [30, 31])]⟩
    [("bpp", [1, 2]), ("psnr", [30, 31])] [1, 2] rfl rfl

end PlotUtil
